import Mathlib

/-!
Shallow embedding of the BJJFanatics daily-deals scraper (src/daily_deals.py)
and proofs about it.

Modelling conventions:
  - Python numbers (floats produced by `float(...) / 100` and JSON numerals)
    are modelled exactly as normalized fractions (`Frac`); the program only
    divides integer minor units by 100, so no floating-point rounding is
    observable in the properties below.
  - Python exceptions are modelled by the `PyErr` error type and `Except`.
  - `datetime` values are modelled as integer second counts in a proleptic
    Gregorian calendar; `timedelta(days=1)` is 86400 seconds.
  - `pathlib.Path` values are modelled by their PurePosixPath normal form
    (string with empty and "." segments collapsed), which is the equality
    used by Python `Path` objects.
  - The HTTP transport (`requests`) and the HTML locator (`BeautifulSoup
    find_all`) are external collaborators: a transport result is an
    `Except PyErr Response`, and the locator is an abstract function
    `String → List String` returning the script texts in document order.
    The incidental debug write of `example.html` in `_request_cards` is
    file I/O with no observable effect on results and is not modelled.
  - `json.loads`, `html.unescape`, `float(str)` and
    `datetime.fromisoformat` are modelled by executable parsers below;
    `html.unescape` is restricted to the five XML named entities plus
    decimal numeric character references, `float` to decimal literals with
    optional exponent, and `fromisoformat` to
    `YYYY-MM-DD[<sep>HH[:MM[:SS]][+HH:MM]]`, which cover every use in the
    program and in the properties proved here.
-/

set_option maxRecDepth 40000

/-- Exact rational numbers with eagerly normalized representation, standing
in for the Python floats manipulated by the scraper. -/
structure Frac where
  num : Int
  den : Nat
  deriving DecidableEq

/-- Normalize a numerator and (positive) denominator by their gcd. -/
def Frac.norm (n : Int) (d : Nat) : Frac :=
  let g := Nat.gcd n.natAbs d
  if g = 0 then ⟨n, d⟩ else ⟨n / (g : Int), d / g⟩

def Frac.ofInt (n : Int) : Frac := ⟨n, 1⟩

def Frac.sub (a b : Frac) : Frac :=
  Frac.norm (a.num * (b.den : Int) - b.num * (a.den : Int)) (a.den * b.den)

def Frac.div (a b : Frac) : Frac :=
  if b.num < 0 then Frac.norm (-(a.num * (b.den : Int))) (a.den * b.num.natAbs)
  else Frac.norm (a.num * (b.den : Int)) (a.den * b.num.natAbs)

def Frac.mulPow10 (a : Frac) (e : Nat) : Frac :=
  Frac.norm (a.num * ((10 ^ e : Nat) : Int)) a.den

def Frac.divPow10 (a : Frac) (e : Nat) : Frac :=
  Frac.norm a.num (a.den * 10 ^ e)

/-- Python exception classes observable in daily_deals.py. -/
inductive PyErr where
  | typeError
  | keyError (k : String)
  | indexError
  | valueError
  | jsonDecodeError
  | zeroDivisionError
  | requestError
  deriving DecidableEq

/-- JSON values as decoded by json.loads. -/
inductive Json where
  | null
  | bool (b : Bool)
  | num (q : Frac)
  | str (s : String)
  | arr (xs : List Json)
  | obj (kvs : List (String × Json))

def Json.isObj : Json → Bool
  | Json.obj _ => true
  | _ => false

/-- Lookup in a decoded JSON object. Python dict construction lets a later
duplicate key overwrite an earlier one, so the last binding wins. -/
def lookupKV (kvs : List (String × Json)) (k : String) : Option Json :=
  kvs.foldl (fun acc p => if p.1 = k then some p.2 else acc) none

/-- Python `data[k]` on a decoded JSON value: KeyError when the key is
absent, TypeError when the value is not a dict. -/
def getItem (data : Json) (k : String) : Except PyErr Json :=
  match data with
  | Json.obj kvs =>
    match lookupKV kvs k with
    | some v => Except.ok v
    | none => Except.error (PyErr.keyError k)
  | _ => Except.error PyErr.typeError

/-- Python `data[i]` for an integer index: IndexError past the end of a
list, KeyError on a dict, TypeError otherwise. -/
def jsonIndex (data : Json) (i : Nat) : Except PyErr Json :=
  match data with
  | Json.arr xs =>
    match xs.get? i with
    | some v => Except.ok v
    | none => Except.error PyErr.indexError
  | Json.obj _ => Except.error (PyErr.keyError (toString i))
  | _ => Except.error PyErr.typeError

/-- Python truthiness of a decoded JSON value. -/
def pyTruthy : Json → Bool
  | Json.null => false
  | Json.bool b => b
  | Json.num q => !(q.num == 0)
  | Json.str s => !(s == "")
  | Json.arr xs => !xs.isEmpty
  | Json.obj kvs => !kvs.isEmpty

/-- Substring test, Python `pat in s`. -/
def strContains (s pat : String) : Bool :=
  s.data.tails.any (fun t => pat.data.isPrefixOf t)

def digitsAux : List Char → Nat → Nat → Nat × Nat × List Char
  | [], acc, n => (acc, n, [])
  | c :: cs, acc, n =>
    if c.isDigit then digitsAux cs (acc * 10 + (c.toNat - 48)) (n + 1)
    else (acc, n, c :: cs)

def hexVal (c : Char) : Option Nat :=
  if c.isDigit then some (c.toNat - 48)
  else if 'a' ≤ c ∧ c ≤ 'f' then some (c.toNat - 87)
  else if 'A' ≤ c ∧ c ≤ 'F' then some (c.toNat - 55)
  else none

def matchNamedEntity (cs : List Char) : Option (Char × List Char) :=
  if "amp;".data.isPrefixOf cs then some ('&', cs.drop 4)
  else if "lt;".data.isPrefixOf cs then some ('<', cs.drop 3)
  else if "gt;".data.isPrefixOf cs then some ('>', cs.drop 3)
  else if "quot;".data.isPrefixOf cs then some ('"', cs.drop 5)
  else if "apos;".data.isPrefixOf cs then some (Char.ofNat 39, cs.drop 5)
  else none

def matchEntity (cs : List Char) : Option (Char × List Char) :=
  match matchNamedEntity cs with
  | some r => some r
  | none =>
    match cs with
    | '#' :: rest =>
      match digitsAux rest 0 0 with
      | (v, n, r2) =>
        match r2 with
        | ';' :: r3 => if n = 0 then none else some (Char.ofNat v, r3)
        | _ => none
    | _ => none

def unescapeAux : Nat → List Char → List Char
  | 0, cs => cs
  | _ + 1, [] => []
  | f + 1, c :: cs =>
    if c = '&' then
      match matchEntity cs with
      | some (ch, rest) => ch :: unescapeAux f rest
      | none => c :: unescapeAux f cs
    else c :: unescapeAux f cs

/-- Model of html.unescape (restricted to the named entities and decimal
character references listed in the header). -/
def htmlUnescape (s : String) : String :=
  String.mk (unescapeAux s.data.length s.data)

def isSpaceChar (c : Char) : Bool :=
  c == ' ' || c == '\t' || c == '\n' || c == '\r'

/-- Model of Python `float(s)` on decimal literals: optional surrounding
whitespace, optional sign, digits with optional fraction and exponent. -/
def parseFloatStr (s : String) : Option Frac :=
  let cs := ((s.data.dropWhile isSpaceChar).reverse.dropWhile isSpaceChar).reverse
  let signed : Bool × List Char :=
    match cs with
    | c :: r => if c = '-' then (true, r) else if c = '+' then (false, r) else (false, cs)
    | [] => (false, cs)
  match digitsAux signed.2 0 0 with
  | (i, ni, r1) =>
    let fracPart : Option (Nat × Nat × List Char) :=
      match r1 with
      | '.' :: rf =>
        match digitsAux rf 0 0 with
        | (fv, nf, r2) => some (fv, nf, r2)
      | _ => some (0, 0, r1)
    match fracPart with
    | none => none
    | some (fv, nf, r2) =>
      if ni + nf = 0 then none
      else
        let base := Frac.norm (if signed.1 then -((i * 10 ^ nf + fv : Nat) : Int) else ((i * 10 ^ nf + fv : Nat) : Int)) (10 ^ nf)
        match r2 with
        | [] => some base
        | c :: r3 =>
          if c = 'e' ∨ c = 'E' then
            let esigned : Bool × List Char :=
              match r3 with
              | c2 :: r4 => if c2 = '-' then (true, r4) else if c2 = '+' then (false, r4) else (false, r3)
              | [] => (false, r3)
            match digitsAux esigned.2 0 0 with
            | (ev, ne, r5) =>
              if ne = 0 ∨ r5 ≠ [] then none
              else some (if esigned.1 then base.divPow10 ev else base.mulPow10 ev)
          else none

/-- Python `float(x)` on a decoded JSON value. -/
def pyFloat : Json → Except PyErr Frac
  | Json.num q => Except.ok q
  | Json.bool b => Except.ok (Frac.ofInt (if b then 1 else 0))
  | Json.str s =>
    match parseFloatStr s with
    | some q => Except.ok q
    | none => Except.error PyErr.valueError
  | _ => Except.error PyErr.typeError

def splitSlashAux : List Char → List Char → List (List Char)
  | [], cur => [cur.reverse]
  | c :: cs, cur =>
    if c = '/' then cur.reverse :: splitSlashAux cs []
    else splitSlashAux cs (c :: cur)

def intercalateSlash : List (List Char) → List Char
  | [] => []
  | [x] => x
  | x :: xs => x ++ '/' :: intercalateSlash xs

/-- PurePosixPath normal form of a string: empty and "." segments dropped,
a leading "//" (but not "///") kept, "." for the empty path. Two Python
`Path` objects are equal exactly when their normal forms coincide. -/
def pathNormalize (s : String) : String :=
  let cs := s.data
  let segs := (splitSlashAux cs []).filter (fun seg => !(seg.isEmpty || seg == ['.']))
  let root : List Char :=
    if "//".data.isPrefixOf cs ∧ ¬ "///".data.isPrefixOf cs then "//".data
    else if "/".data.isPrefixOf cs then ['/']
    else []
  if root.isEmpty ∧ segs.isEmpty then "."
  else String.mk (root ++ intercalateSlash segs)

/-- One product discount snapshot (the `Deal` dataclass). The dataclass
fields are dynamically typed in the source, so `id`, `title` and `seller`
hold decoded JSON values; prices are absent (`none`) when the source field
is null; `path` holds the Path normal form. -/
structure Deal where
  id : Json
  title : Json
  original_price : Option Frac
  current_price : Option Frac
  seller : Json
  path : String
  available : Bool

/-- `float(x) / 100 if not isinstance(x, NoneType) else None`. -/
def price_of : Json → Except PyErr (Option Frac)
  | Json.null => Except.ok none
  | j => (pyFloat j).map (fun q => some (q.div (Frac.ofInt 100)))

/-- Deal.from_json: field accesses happen in the order of the keyword
arguments of the `cls(...)` call in the source (id, title, prices from the
first variant, vendor, url, available), so the first failing access
determines the raised error. -/
def Deal.from_json (data : Json) : Except PyErr Deal :=
  match data with
  | Json.obj _ => do
    let i ← getItem data "id"
    let t ← getItem data "title"
    let vs ← getItem data "variants"
    let v0 ← jsonIndex vs 0
    let cap ← getItem v0 "compare_at_price"
    let op ← price_of cap
    let vs2 ← getItem data "variants"
    let v02 ← jsonIndex vs2 0
    let pr ← getItem v02 "price"
    let cp ← price_of pr
    let vd ← getItem data "vendor"
    let u ← getItem data "url"
    let us ← match u with
      | Json.str s => Except.ok s
      | _ => Except.error PyErr.typeError
    let av ← getItem data "available"
    Except.ok ⟨i, t, op, cp, vd, pathNormalize (htmlUnescape us), pyTruthy av⟩
  | _ => Except.error PyErr.typeError

/-- `self.original_price - self.current_price`: TypeError when either
operand is None. -/
def Deal.savings_amount (d : Deal) : Except PyErr Frac :=
  match d.original_price, d.current_price with
  | some o, some c => Except.ok (o.sub c)
  | _, _ => Except.error PyErr.typeError

/-- `self.current_price / self.original_price`: TypeError when either
operand is None, ZeroDivisionError when the divisor is zero. -/
def Deal.savings_percentage (d : Deal) : Except PyErr Frac :=
  match d.current_price, d.original_price with
  | some c, some o =>
    if o.num = 0 then Except.error PyErr.zeroDivisionError else Except.ok (c.div o)
  | _, _ => Except.error PyErr.typeError

/-- Simplified Python str() rendering of numbers (exact fractions are shown
as numerator or numerator/denominator; the repr property proved below does
not depend on this rendering). -/
def pyStrFrac (q : Frac) : String :=
  if q.den = 1 then toString q.num ++ ".0"
  else toString q.num ++ "/" ++ toString q.den

mutual

def pyStrJson : Json → String
  | Json.null => "None"
  | Json.bool true => "True"
  | Json.bool false => "False"
  | Json.num q => pyStrFrac q
  | Json.str s => s
  | Json.arr xs => "[" ++ pyStrList xs ++ "]"
  | Json.obj kvs => "\x7b" ++ pyStrKVs kvs ++ "\x7d"

def pyStrList : List Json → String
  | [] => ""
  | [x] => pyStrJson x
  | x :: xs => pyStrJson x ++ ", " ++ pyStrList xs

def pyStrKVs : List (String × Json) → String
  | [] => ""
  | [(k, v)] => k ++ ": " ++ pyStrJson v
  | (k, v) :: xs => k ++ ": " ++ pyStrJson v ++ ", " ++ pyStrKVs xs

end

def pyStrOptFrac : Option Frac → String
  | none => "None"
  | some q => pyStrFrac q

/-- Deal.__repr__: the f-string of the source, which interpolates
`self.id` on the line labelled `title=`. -/
def Deal.repr (d : Deal) : String :=
  "Deal(\n    id=" ++ pyStrJson d.id ++
  ",\n    title=" ++ pyStrJson d.id ++
  ",\n    original_price=" ++ pyStrOptFrac d.original_price ++
  ",\n    current_price=" ++ pyStrOptFrac d.current_price ++
  ",\n    seller=" ++ pyStrJson d.seller ++
  ",\n    path=" ++ d.path ++
  ",\n    available=" ++ (if d.available then "True" else "False") ++
  ",\n        )"

/-- One aggregated snapshot (the `DailyDeals` dataclass); dates are
modelled as second counts. -/
structure DailyDeals where
  updated_date : Int
  expiry_date : Int
  deals : List Deal

def DailyDeals.is_empty (d : DailyDeals) : Bool :=
  d.deals.length == 0

def skipWs : List Char → List Char
  | [] => []
  | c :: cs => if c = ' ' ∨ c = '\n' ∨ c = '\t' ∨ c = '\r' then skipWs cs else c :: cs

def lbrace : Char := Char.ofNat 123

def rbrace : Char := Char.ofNat 125

def parseJString : Nat → List Char → Option (List Char × List Char)
  | 0, _ => none
  | f + 1, cs =>
    match cs with
    | [] => none
    | c :: rest =>
      if c = '"' then some ([], rest)
      else if c = '\\' then
        match rest with
        | [] => none
        | e :: r2 =>
          if e = '"' ∨ e = '\\' ∨ e = '/' then
            (parseJString f r2).map (fun p => (e :: p.1, p.2))
          else if e = 'n' then (parseJString f r2).map (fun p => ('\n' :: p.1, p.2))
          else if e = 't' then (parseJString f r2).map (fun p => ('\t' :: p.1, p.2))
          else if e = 'r' then (parseJString f r2).map (fun p => ('\r' :: p.1, p.2))
          else if e = 'b' then (parseJString f r2).map (fun p => (Char.ofNat 8 :: p.1, p.2))
          else if e = 'f' then (parseJString f r2).map (fun p => (Char.ofNat 12 :: p.1, p.2))
          else if e = 'u' then
            match r2 with
            | a :: b :: c2 :: d :: r3 =>
              match hexVal a, hexVal b, hexVal c2, hexVal d with
              | some ha, some hb, some hc, some hd =>
                (parseJString f r3).map
                  (fun p => (Char.ofNat (ha * 4096 + hb * 256 + hc * 16 + hd) :: p.1, p.2))
              | _, _, _, _ => none
            | _ => none
          else none
      else (parseJString f rest).map (fun p => (c :: p.1, p.2))

def parseJExp (neg : Bool) (mant : Nat) (nf : Nat) (cs : List Char) :
    Option (Frac × List Char) :=
  let base := Frac.norm (if neg then -(mant : Int) else (mant : Int)) (10 ^ nf)
  match cs with
  | c :: r =>
    if c = 'e' ∨ c = 'E' then
      let esigned : Bool × List Char :=
        match r with
        | c2 :: r2 => if c2 = '-' then (true, r2) else if c2 = '+' then (false, r2) else (false, r)
        | [] => (false, r)
      match digitsAux esigned.2 0 0 with
      | (ev, ne, r2) =>
        if ne = 0 then none
        else some ((if esigned.1 then base.divPow10 ev else base.mulPow10 ev), r2)
    else some (base, cs)
  | [] => some (base, [])

def parseJNumber (cs : List Char) : Option (Frac × List Char) :=
  let signed : Bool × List Char :=
    match cs with
    | c :: r => if c = '-' then (true, r) else (false, cs)
    | [] => (false, cs)
  match digitsAux signed.2 0 0 with
  | (i, ni, r1) =>
    if ni = 0 then none
    else
      match r1 with
      | '.' :: rf =>
        match digitsAux rf 0 0 with
        | (fv, nf, r2) => if nf = 0 then none else parseJExp signed.1 (i * 10 ^ nf + fv) nf r2
      | _ => parseJExp signed.1 i 0 r1

mutual

def parseValue : Nat → List Char → Option (Json × List Char)
  | 0, _ => none
  | f + 1, cs =>
    match skipWs cs with
    | [] => none
    | c :: rest =>
      if c = '"' then (parseJString (rest.length + 1) rest).map (fun p => (Json.str (String.mk p.1), p.2))
      else if c = '[' then
        match skipWs rest with
        | [] => none
        | c2 :: rest2 =>
          if c2 = ']' then some (Json.arr [], rest2)
          else (parseElems f (c2 :: rest2)).map (fun p => (Json.arr p.1, p.2))
      else if c = lbrace then
        match skipWs rest with
        | [] => none
        | c2 :: rest2 =>
          if c2 = rbrace then some (Json.obj [], rest2)
          else (parseMembers f (c2 :: rest2)).map (fun p => (Json.obj p.1, p.2))
      else if c = 't' then
        match rest with
        | 'r' :: 'u' :: 'e' :: r => some (Json.bool true, r)
        | _ => none
      else if c = 'f' then
        match rest with
        | 'a' :: 'l' :: 's' :: 'e' :: r => some (Json.bool false, r)
        | _ => none
      else if c = 'n' then
        match rest with
        | 'u' :: 'l' :: 'l' :: r => some (Json.null, r)
        | _ => none
      else (parseJNumber (c :: rest)).map (fun p => (Json.num p.1, p.2))

def parseElems : Nat → List Char → Option (List Json × List Char)
  | 0, _ => none
  | f + 1, cs => do
    let p ← parseValue f cs
    match skipWs p.2 with
    | [] => none
    | c :: rest =>
      if c = ',' then (parseElems f rest).map (fun q => (p.1 :: q.1, q.2))
      else if c = ']' then some ([p.1], rest)
      else none

def parseMembers : Nat → List Char → Option (List (String × Json) × List Char)
  | 0, _ => none
  | f + 1, cs =>
    match skipWs cs with
    | [] => none
    | c :: rest =>
      if c = '"' then do
        let k ← parseJString (rest.length + 1) rest
        match skipWs k.2 with
        | [] => none
        | c1 :: rest2 =>
          if c1 = ':' then do
            let v ← parseValue f rest2
            match skipWs v.2 with
            | [] => none
            | c2 :: rest3 =>
              if c2 = ',' then
                (parseMembers f rest3).map (fun q => ((String.mk k.1, v.1) :: q.1, q.2))
              else if c2 = rbrace then some ([(String.mk k.1, v.1)], rest3)
              else none
          else none
      else none

end

/-- Model of json.loads on a response body or a fragment text (accepts a
small superset of JSON numerals; every input used in this development is
strict JSON). -/
def json_loads (s : String) : Except PyErr Json :=
  match parseValue (2 * s.data.length + 2) s.data with
  | some (v, rest) => if skipWs rest = [] then Except.ok v else Except.error PyErr.jsonDecodeError
  | none => Except.error PyErr.jsonDecodeError

def expectChar (c : Char) : List Char → Option (List Char)
  | x :: xs => if x = c then some xs else none
  | [] => none

def digit2 : List Char → Option (Nat × List Char)
  | a :: b :: r =>
    if a.isDigit ∧ b.isDigit then some ((a.toNat - 48) * 10 + (b.toNat - 48), r) else none
  | _ => none

def digit4 : List Char → Option (Nat × List Char)
  | a :: b :: c :: d :: r =>
    if a.isDigit ∧ b.isDigit ∧ c.isDigit ∧ d.isDigit then
      some (((a.toNat - 48) * 1000 + (b.toNat - 48) * 100 + (c.toNat - 48) * 10 + (d.toNat - 48)), r)
    else none
  | _ => none

def isLeapYear (y : Nat) : Bool :=
  y % 4 == 0 && (y % 100 != 0 || y % 400 == 0)

def daysInMonth (y m : Nat) : Nat :=
  if m = 2 then (if isLeapYear y then 29 else 28)
  else if m = 4 ∨ m = 6 ∨ m = 9 ∨ m = 11 then 30
  else 31

def daysBeforeMonth (y m : Nat) : Nat :=
  let base :=
    match m with
    | 1 => 0
    | 2 => 31
    | 3 => 59
    | 4 => 90
    | 5 => 120
    | 6 => 151
    | 7 => 181
    | 8 => 212
    | 9 => 243
    | 10 => 273
    | 11 => 304
    | _ => 334
  base + (if 2 < m ∧ isLeapYear y then 1 else 0)

/-- Days from 0001-01-01 (day 0) in the proleptic Gregorian calendar. -/
def toOrdinal (y m d : Nat) : Nat :=
  let a := y - 1
  365 * a + a / 4 + a / 400 - a / 100 + daysBeforeMonth y m + (d - 1)

def parseTz (cs : List Char) : Option (Int × List Char) :=
  match cs with
  | c :: r =>
    if c = '+' ∨ c = '-' then do
      let oh ← digit2 r
      let r2 ← expectChar ':' oh.2
      let om ← digit2 r2
      if oh.1 ≥ 24 ∨ om.1 ≥ 60 then none
      else
        let secs : Int := ((oh.1 * 3600 + om.1 * 60 : Nat) : Int)
        some ((if c = '-' then -secs else secs), om.2)
    else none
  | [] => none

def parseTimePart (cs : List Char) : Option (Nat × List Char) := do
  let hh ← digit2 cs
  match hh.2 with
  | ':' :: r2 => do
    let mm ← digit2 r2
    match mm.2 with
    | ':' :: r4 => do
      let ss ← digit2 r4
      if hh.1 ≥ 24 ∨ mm.1 ≥ 60 ∨ ss.1 ≥ 60 then none
      else some (hh.1 * 3600 + mm.1 * 60 + ss.1, ss.2)
    | _ =>
      if hh.1 ≥ 24 ∨ mm.1 ≥ 60 then none else some (hh.1 * 3600 + mm.1 * 60, mm.2)
  | _ => if hh.1 ≥ 24 then none else some (hh.1 * 3600, hh.2)

def parseIso (cs : List Char) : Option Int := do
  let y ← digit4 cs
  let r2 ← expectChar '-' y.2
  let m ← digit2 r2
  let r4 ← expectChar '-' m.2
  let d ← digit2 r4
  if y.1 = 0 ∨ m.1 = 0 ∨ m.1 > 12 ∨ d.1 = 0 ∨ d.1 > daysInMonth y.1 m.1 then none
  else
    match d.2 with
    | [] => some ((toOrdinal y.1 m.1 d.1 : Int) * 86400)
    | _ :: r6 => do
      let ts ← parseTimePart r6
      match ts.2 with
      | [] => some ((toOrdinal y.1 m.1 d.1 : Int) * 86400 + (ts.1 : Int))
      | _ => do
        let off ← parseTz ts.2
        match off.2 with
        | [] => some ((toOrdinal y.1 m.1 d.1 : Int) * 86400 + (ts.1 : Int) - off.1)
        | _ => none

/-- Model of datetime.fromisoformat, as an instant in seconds (an explicit
offset is folded into the instant; the separator after the date may be any
single character, as in CPython before 3.11). -/
def fromisoformat (s : String) : Except PyErr Int :=
  match parseIso s.data with
  | some t => Except.ok t
  | none => Except.error PyErr.valueError

/-- datetime.fromisoformat applied to a decoded JSON value: TypeError
unless the value is a string. -/
def pyFromIso : Json → Except PyErr Int
  | Json.str s => fromisoformat s
  | _ => Except.error PyErr.typeError

/-- An HTTP response: a status code and a body (res.text and res.content
are both modelled by the body string). -/
structure Response where
  status : Nat
  body : String

/-- The textual zero-discount sentinel filtered by _parse_deals. -/
def zeroSentinel : String := "\"compare_at_price_min\": 0,"

/-- The list comprehension of _parse_deals on the kept fragments: Python
evaluates one fragment at a time and the first exception aborts the whole
comprehension. -/
def mapParse : List String → Except PyErr (List Deal)
  | [] => Except.ok []
  | c :: cs => do
    let d ← json_loads c >>= Deal.from_json
    let ds ← mapParse cs
    Except.ok (d :: ds)

/-- BJJFanaticsScraper._parse_deals on the fragment texts (`cards` is
always a list here, so the isinstance guard of the source never fires). -/
def parse_deals (cards : List String) : Except PyErr (List Deal) :=
  mapParse (cards.filter (fun c => !strContains c zeroSentinel))

/-- BJJFanaticsScraper._request_cards: raises unless the status is 200
(requests.codes.ok), then hands the entity-unescaped body to the HTML
locator `extract` (the BeautifulSoup collaborator) which returns the
fragment texts in document order. -/
def request_cards (tr : Except PyErr Response) (extract : String → List String) :
    Except PyErr (List String) := do
  let res ← tr
  if res.status ≠ 200 then Except.error PyErr.requestError
  else Except.ok (extract (htmlUnescape res.body))

/-- BJJFanaticsScraper._get_deals_info: decode the body as JSON and return
its collection member. The source never inspects res.status_code here. -/
def get_deals_info (tr : Except PyErr Response) : Except PyErr Json := do
  let res ← tr
  let data ← json_loads res.body
  getItem data "collection"

/-- Consume exactly one scripted transport result per call: the model of
one requests.get attempt with no retry. -/
def run_get_deals_info (script : List (Except PyErr Response)) :
    Except PyErr Json × List (Except PyErr Response) :=
  match script with
  | [] => (Except.error PyErr.requestError, [])
  | r :: rest => (get_deals_info r, rest)

/-- BJJFanaticsScraper._list_deals for one page, given the transport
results of the page request and of the metadata request. -/
def list_deals (pageTr : Except PyErr Response) (extract : String → List String)
    (metaTr : Except PyErr Response) : Except PyErr DailyDeals := do
  let cards ← request_cards pageTr extract
  let deals_data ← parse_deals cards
  let deals_info ← get_deals_info metaTr
  let u ← getItem deals_info "updated_at"
  let t ← pyFromIso u
  Except.ok ⟨t, t + 86400, deals_data⟩

/-- The upstream world: per page number, the transport result of the page
request and of the metadata request made while processing that page, plus
the HTML locator. -/
structure World where
  page : Nat → Except PyErr Response
  extract : String → List String
  meta : Nat → Except PyErr Response

/-- BJJFanaticsScraper.get_deals. -/
def get_deals (w : World) (pg : Nat) : Except PyErr DailyDeals :=
  list_deals (w.page pg) w.extract (w.meta pg)

/-- The while loop of get_all_deals. The source enters the loop through a
dummy non-empty sentinel (`DailyDeals('', '', [1])`) whose fields are never
otherwise read, so the loop is a fetch-then-test recursion: fetch the page,
extend the accumulator, stop when the fetched page is empty. `fuel` bounds
the number of iterations (the source has no bound; exhaustion returns
`none`); the returned list records the page numbers fetched, in order. -/
def get_all_deals_aux (w : World) :
    Nat → Nat → List Deal → List Nat → Option (Except PyErr DailyDeals × List Nat)
  | 0, _, _, _ => none
  | f + 1, pg, acc, log =>
    match get_deals w pg with
    | Except.error e => some (Except.error e, log ++ [pg])
    | Except.ok curr =>
      if curr.is_empty then
        some (Except.ok ⟨curr.updated_date, curr.expiry_date, acc ++ curr.deals⟩, log ++ [pg])
      else get_all_deals_aux w f (pg + 1) (acc ++ curr.deals) (log ++ [pg])

/-- BJJFanaticsScraper.get_all_deals, starting at page 1 with an empty
accumulator. -/
def get_all_deals (w : World) (fuel : Nat) :
    Option (Except PyErr DailyDeals × List Nat) :=
  get_all_deals_aux w fuel 1 [] []

/-- Concatenation of the deal lists of pages p, p+1, ..., p+len-1. -/
def pagesDeals (dd : Nat → DailyDeals) (p len : Nat) : List Deal :=
  ((List.range' p len).map (fun k => (dd k).deals)).flatten

/-! Concrete data used to instantiate the theorems below: two product
fragments as they appear embedded in the listing markup, a fragment
carrying the zero-discount sentinel, a collection metadata body, and a
two-page upstream world (2 deals on page 1, none on page 2). -/

def fragClean : String := "\x7b\"id\": 1, \"title\": \"Gi\", \"vendor\": \"X\", \"url\": \"https://a&amp;b\", \"available\": true, \"variants\": [\x7b\"compare_at_price\": \"10000\", \"price\": \"8000\"\x7d]\x7d"

def fragSent : String := "\x7b\"id\": 2, \"title\": \"B\", \"vendor\": \"Y\", \"url\": \"u\", \"available\": true, \"compare_at_price_min\": 0, \"variants\": [\x7b\"compare_at_price\": \"5000\", \"price\": \"4000\"\x7d]\x7d"

def metaBody : String := "\x7b\"collection\": \x7b\"updated_at\": \"2023-01-02T00:00:00\"\x7d\x7d"

def fragA : String := "\x7b\"id\": 1, \"title\": \"A\", \"vendor\": \"V\", \"url\": \"u1\", \"available\": true, \"variants\": [\x7b\"compare_at_price\": \"10000\", \"price\": \"8000\"\x7d]\x7d"

def fragB : String := "\x7b\"id\": 2, \"title\": \"B\", \"vendor\": \"V\", \"url\": \"u2\", \"available\": true, \"variants\": [\x7b\"compare_at_price\": \"5000\", \"price\": \"2500\"\x7d]\x7d"

def extractEx (s : String) : List String :=
  if s = "P1" then [fragA, fragB] else []

def wEx : World :=
  ⟨fun pg => if pg = 1 then Except.ok ⟨200, "P1"⟩ else Except.ok ⟨200, "P2"⟩,
   extractEx,
   fun _ => Except.ok ⟨200, metaBody⟩⟩

def dealA : Deal :=
  ⟨Json.num ⟨1, 1⟩, Json.str "A", some ⟨100, 1⟩, some ⟨80, 1⟩, Json.str "V", "u1", true⟩

def dealB : Deal :=
  ⟨Json.num ⟨2, 1⟩, Json.str "B", some ⟨50, 1⟩, some ⟨25, 1⟩, Json.str "V", "u2", true⟩

def ddEx (k : Nat) : DailyDeals :=
  if k = 1 then ⟨63808214400, 63808300800, [dealA, dealB]⟩
  else ⟨63808214400, 63808300800, []⟩

/-- A world whose very first page request fails at transport level. -/
def wErr : World :=
  ⟨fun _ => Except.error PyErr.requestError, extractEx, fun _ => Except.ok ⟨200, metaBody⟩⟩

/-- The JSON object of the scenario in the specification, as key-value
bindings. -/
def giKvs : List (String × Json) :=
  [("id", Json.num ⟨1, 1⟩), ("title", Json.str "Gi"), ("vendor", Json.str "X"),
   ("url", Json.str "https://a&amp;b"), ("available", Json.bool true),
   ("variants", Json.arr [Json.obj [("compare_at_price", Json.str "10000"), ("price", Json.str "8000")]])]

/-- A deal with both prices present. -/
def dBoth : Deal := ⟨Json.null, Json.null, some ⟨100, 1⟩, some ⟨80, 1⟩, Json.null, "", true⟩

/-- A deal whose original price is exactly zero and whose current price is
present. -/
def dZero : Deal := ⟨Json.null, Json.null, some ⟨0, 1⟩, some ⟨80, 1⟩, Json.null, "", true⟩

/-- The decoded value of fragSent: its own compare_at_price_min field is
zero, but its first variant has the non-zero compare_at_price "5000". -/
def fragSentJson : Json :=
  Json.obj [("id", Json.num ⟨2, 1⟩), ("title", Json.str "B"), ("vendor", Json.str "Y"),
    ("url", Json.str "u"), ("available", Json.bool true),
    ("compare_at_price_min", Json.num ⟨0, 1⟩),
    ("variants", Json.arr [Json.obj [("compare_at_price", Json.str "5000"), ("price", Json.str "4000")]])]

/-- The deal parsed from fragClean. -/
def dealGi : Deal :=
  ⟨Json.num ⟨1, 1⟩, Json.str "Gi", some ⟨100, 1⟩, some ⟨80, 1⟩, Json.str "X", "https:/a&b", true⟩

/-! Helper lemmas shared by the claim theorems below. -/

theorem except_bind_ok {α β : Type} (x : Except PyErr α) (f : α → Except PyErr β) (b : β) :
    (x >>= f) = Except.ok b ↔ ∃ a, x = Except.ok a ∧ f a = Except.ok b := by
  cases x <;> simp [Bind.bind, Except.bind]

theorem list_deals_ok_expiry (pt : Except PyErr Response) (ex : String → List String)
    (mt : Except PyErr Response) (dd : DailyDeals)
    (h : list_deals pt ex mt = Except.ok dd) :
    dd.expiry_date = dd.updated_date + 86400 := by
  unfold list_deals at h
  obtain ⟨cards, -, h⟩ := (except_bind_ok _ _ _).mp h
  obtain ⟨ds, -, h⟩ := (except_bind_ok _ _ _).mp h
  obtain ⟨info, -, h⟩ := (except_bind_ok _ _ _).mp h
  obtain ⟨u, -, h⟩ := (except_bind_ok _ _ _).mp h
  obtain ⟨t, -, h⟩ := (except_bind_ok _ _ _).mp h
  injection h with h
  subst h
  rfl

theorem get_all_deals_aux_ok_expiry (w : World) :
    ∀ (fuel p : Nat) (acc : List Deal) (log : List Nat) (dd : DailyDeals) (log2 : List Nat),
      get_all_deals_aux w fuel p acc log = some (Except.ok dd, log2) →
      dd.expiry_date = dd.updated_date + 86400 := by
  intro fuel
  induction fuel with
  | zero => intro p acc log dd log2 h; cases h
  | succ f ih =>
    intro p acc log dd log2 h
    unfold get_all_deals_aux at h
    cases hg : get_deals w p with
    | error e => simp only [hg] at h; simp at h
    | ok curr =>
      simp only [hg] at h
      split at h
      · simp only [Option.some.injEq, Prod.mk.injEq, Except.ok.injEq] at h
        obtain ⟨hdd, -⟩ := h
        subst hdd
        unfold get_deals at hg
        exact list_deals_ok_expiry _ _ _ curr hg
      · exact ih _ _ _ _ _ h

theorem get_all_deals_aux_skip (w : World) (dd : Nat → DailyDeals) :
    ∀ (len fuel p : Nat) (acc : List Deal) (log : List Nat),
      (∀ k, p ≤ k → k < p + len → get_deals w k = Except.ok (dd k) ∧ (dd k).is_empty = false) →
      len ≤ fuel →
      get_all_deals_aux w fuel p acc log
        = get_all_deals_aux w (fuel - len) (p + len) (acc ++ pagesDeals dd p len)
            (log ++ List.range' p len) := by
  intro len
  induction len with
  | zero => intro fuel p acc log h hle; simp [pagesDeals]
  | succ n ih =>
    intro fuel p acc log h hle
    cases fuel with
    | zero => omega
    | succ f =>
      obtain ⟨hok, hne⟩ := h p le_rfl (by omega)
      have hstep : get_all_deals_aux w (f + 1) p acc log
          = get_all_deals_aux w f (p + 1) (acc ++ (dd p).deals) (log ++ [p]) := by
        simp [get_all_deals_aux, hok, hne]
      have hps : pagesDeals dd p (n + 1) = (dd p).deals ++ pagesDeals dd (p + 1) n := by
        simp [pagesDeals, List.range'_succ]
      have e1 : (f + 1) - (n + 1) = f - n := by omega
      have e2 : p + (n + 1) = p + 1 + n := by omega
      rw [hstep, ih f (p + 1) (acc ++ (dd p).deals) (log ++ [p])
            (fun k hk1 hk2 => h k (by omega) (by omega)) (by omega),
          e1, e2, hps, ← List.append_assoc]
      congr 1
      rw [List.range'_succ]
      simp

theorem get_all_deals_aux_none (w : World) (dd : Nat → DailyDeals)
    (h : ∀ k, 1 ≤ k → get_deals w k = Except.ok (dd k) ∧ (dd k).is_empty = false) :
    ∀ (fuel p : Nat) (acc : List Deal) (log : List Nat), 1 ≤ p →
      get_all_deals_aux w fuel p acc log = none := by
  intro fuel
  induction fuel with
  | zero => intro p acc log hp; rfl
  | succ f ih =>
    intro p acc log hp
    obtain ⟨hok, hne⟩ := h p hp
    simp [get_all_deals_aux, hok, hne]
    exact ih (p + 1) _ _ (by omega)

theorem range'_concat_self (n : Nat) (hn : 1 ≤ n) :
    List.range' 1 (n - 1) ++ [n] = List.range' 1 n := by
  have h := List.range'_1_concat 1 (n - 1)
  rw [show n - 1 + 1 = n from by omega, show 1 + (n - 1) = n from by omega] at h
  exact h.symm

/-- Full characterization of a run of get_all_deals that reaches a first
empty page n: the result concatenates the deals of pages 1..n-1, carries
the metadata dates fetched while processing page n, and the pages fetched
are exactly 1..n. -/
theorem get_all_deals_run (w : World) (dd : Nat → DailyDeals) (n fuel : Nat)
    (hn : 1 ≤ n) (hfuel : n ≤ fuel)
    (hpages : ∀ k, 1 ≤ k → k < n → get_deals w k = Except.ok (dd k) ∧ (dd k).is_empty = false)
    (hlast : get_deals w n = Except.ok (dd n))
    (hempty : (dd n).deals = []) :
    get_all_deals w fuel
      = some (Except.ok ⟨(dd n).updated_date, (dd n).expiry_date, pagesDeals dd 1 (n - 1)⟩,
              List.range' 1 n) := by
  unfold get_all_deals
  rw [get_all_deals_aux_skip w dd (n - 1) fuel 1 [] []
        (fun k hk1 hk2 => hpages k hk1 (by omega)) (by omega)]
  cases hf : fuel - (n - 1) with
  | zero => omega
  | succ f =>
    rw [show 1 + (n - 1) = n from by omega]
    have hemp : (dd n).is_empty = true := by simp [DailyDeals.is_empty, hempty]
    simp only [get_all_deals_aux, hlast, hemp, if_true, List.nil_append]
    rw [hempty, List.append_nil, range'_concat_self n hn]

/-- Like get_all_deals_run, but the loop reaches a page n whose fetch or
parse fails: the error is returned and no deal list is produced. -/
theorem get_all_deals_run_error (w : World) (dd : Nat → DailyDeals) (n fuel : Nat) (e : PyErr)
    (hn : 1 ≤ n) (hfuel : n ≤ fuel)
    (hpages : ∀ k, 1 ≤ k → k < n → get_deals w k = Except.ok (dd k) ∧ (dd k).is_empty = false)
    (hlast : get_deals w n = Except.error e) :
    get_all_deals w fuel = some (Except.error e, List.range' 1 n) := by
  unfold get_all_deals
  rw [get_all_deals_aux_skip w dd (n - 1) fuel 1 [] []
        (fun k hk1 hk2 => hpages k hk1 (by omega)) (by omega)]
  cases hf : fuel - (n - 1) with
  | zero => omega
  | succ f =>
    rw [show 1 + (n - 1) = n from by omega]
    simp only [get_all_deals_aux, hlast, List.nil_append]
    rw [range'_concat_self n hn]

/-- C1: starting at page 1, get_all_deals fetches successive pages and,
when page n is the first page yielding zero deals, returns a DailyDeals
whose deals are exactly the concatenation, in page-then-document order, of
the deals of pages 1..n-1; the empty page n is fetched (it appears in the
fetch log) but contributes no deals. -/
theorem get_all_deals_concat_pages (w : World) (dd : Nat → DailyDeals) (n fuel : Nat)
    (hn : 1 ≤ n) (hfuel : n ≤ fuel)
    (hpages : ∀ k, 1 ≤ k → k < n → get_deals w k = Except.ok (dd k) ∧ (dd k).is_empty = false)
    (hlast : get_deals w n = Except.ok (dd n))
    (hempty : (dd n).deals = []) :
    get_all_deals w fuel
      = some (Except.ok ⟨(dd n).updated_date, (dd n).expiry_date, pagesDeals dd 1 (n - 1)⟩,
              List.range' 1 n) :=
  get_all_deals_run w dd n fuel hn hfuel hpages hlast hempty

/-- C1 witness: a server returning 2 deals on page 1 and 0 deals on page 2
yields exactly those two deals, and fetching stops after page 2. -/
theorem get_all_deals_concat_pages_witness :
    get_all_deals wEx 5
      = some (Except.ok ⟨63808214400, 63808300800, [dealA, dealB]⟩, [1, 2]) := by
  have h := get_all_deals_concat_pages wEx ddEx 2 5 (by omega) (by omega)
    (fun k hk1 hk2 => by
      have hk : k = 1 := by omega
      subst hk
      exact ⟨rfl, rfl⟩)
    rfl rfl
  exact h.trans (by rfl)

/-- C9: get_all_deals terminates exactly when the upstream eventually
yields an empty page: when page n is the first empty page (earlier pages
all succeeding non-empty), fuel n suffices and pages 1..n are fetched;
when every page succeeds with a non-empty deal list, no amount of fuel
makes the loop return, i.e. the loop is unbounded. -/
theorem termination_iff_empty_page :
    (∀ (w : World) (dd : Nat → DailyDeals) (n : Nat), 1 ≤ n →
        (∀ k, 1 ≤ k → k < n → get_deals w k = Except.ok (dd k) ∧ (dd k).is_empty = false) →
        get_deals w n = Except.ok (dd n) → (dd n).deals = [] →
        ∃ r, get_all_deals w n = some (r, List.range' 1 n))
    ∧ (∀ (w : World) (dd : Nat → DailyDeals),
        (∀ k, 1 ≤ k → get_deals w k = Except.ok (dd k) ∧ (dd k).is_empty = false) →
        ∀ fuel, get_all_deals w fuel = none) := by
  constructor
  · intro w dd n hn hpages hlast hempty
    exact ⟨_, get_all_deals_run w dd n n hn le_rfl hpages hlast hempty⟩
  · intro w dd h fuel
    exact get_all_deals_aux_none w dd h fuel 1 [] [] le_rfl

/-- C9 witness: the two-page example world terminates with fuel 2 having
fetched pages 1 and 2. -/
theorem termination_iff_empty_page_witness :
    ∃ r, get_all_deals wEx 2 = some (r, [1, 2]) := by
  have h := termination_iff_empty_page.1 wEx ddEx 2 (by omega)
    (fun k hk1 hk2 => by
      have hk : k = 1 := by omega
      subst hk
      exact ⟨rfl, rfl⟩)
    rfl rfl
  exact h

/-- C7: a failure while fetching or parsing a page aborts the whole
aggregation with that error and no partial deal list. Conjuncts: a
non-success HTTP status makes the page fetch raise; a kept fragment whose
text is not valid JSON makes _parse_deals raise; and when pages 1..n-1
succeed non-empty and page n fails with error e, get_all_deals returns
exactly that error (no deal list) after fetching pages 1..n. -/
theorem errors_abort_aggregation :
    (∀ (res : Response) (extract : String → List String), res.status ≠ 200 →
        request_cards (Except.ok res) extract = Except.error PyErr.requestError)
    ∧ (∀ (cards : List String) (c : String) (e : PyErr), c ∈ cards →
        strContains c zeroSentinel = false → json_loads c = Except.error e →
        ∃ e2, parse_deals cards = Except.error e2)
    ∧ (∀ (w : World) (dd : Nat → DailyDeals) (n fuel : Nat) (e : PyErr), 1 ≤ n → n ≤ fuel →
        (∀ k, 1 ≤ k → k < n → get_deals w k = Except.ok (dd k) ∧ (dd k).is_empty = false) →
        get_deals w n = Except.error e →
        get_all_deals w fuel = some (Except.error e, List.range' 1 n)) := by
  refine ⟨?_, ?_, ?_⟩
  · intro res extract h
    simp [request_cards, Bind.bind, Except.bind, h]
  · intro cards
    induction cards with
    | nil => intro c e hc; cases hc
    | cons a as ih =>
      intro c e hc hcs hjl
      by_cases ha : strContains a zeroSentinel
      · have hca : c ≠ a := fun hce => by rw [hce] at hcs; rw [hcs] at ha; cases ha
        have hcas : c ∈ as := by
          cases hc with
          | head => exact absurd rfl hca
          | tail _ h2 => exact h2
        obtain ⟨e2, hp⟩ := ih c e hcas hcs hjl
        refine ⟨e2, ?_⟩
        unfold parse_deals at hp ⊢
        simpa [List.filter, ha] using hp
      · have hfil : (a :: as).filter (fun x => !strContains x zeroSentinel)
            = a :: as.filter (fun x => !strContains x zeroSentinel) := by
          simp [List.filter, ha]
        cases hjla : json_loads a with
        | error ea =>
          refine ⟨ea, ?_⟩
          unfold parse_deals
          rw [hfil]
          simp [mapParse, hjla, Bind.bind, Except.bind]
        | ok va =>
          cases hfa : Deal.from_json va with
          | error ea =>
            refine ⟨ea, ?_⟩
            unfold parse_deals
            rw [hfil]
            simp [mapParse, hjla, hfa, Bind.bind, Except.bind]
          | ok d =>
            have hcas : c ∈ as := by
              cases hc with
              | head =>
                rw [hjl] at hjla
                exact Except.noConfusion hjla
              | tail _ h2 => exact h2
            obtain ⟨e2, hp⟩ := ih c e hcas hcs hjl
            refine ⟨e2, ?_⟩
            unfold parse_deals at hp ⊢
            rw [hfil]
            simp [mapParse, hjla, hfa, hp, Bind.bind, Except.bind]
  · intro w dd n fuel e hn hfuel hpages hlast
    exact get_all_deals_run_error w dd n fuel e hn hfuel hpages hlast

/-- C7 witness: a world whose first page request fails at transport level
makes get_all_deals return that error with no deals, after fetching only
page 1. -/
theorem errors_abort_aggregation_witness :
    get_all_deals wErr 3 = some (Except.error PyErr.requestError, [1]) := by
  have h := errors_abort_aggregation.2.2 wErr ddEx 1 3 PyErr.requestError (by omega) (by omega)
    (fun k hk1 hk2 => by omega) rfl
  exact h.trans (by rfl)

/-- C4: every page result built by _list_deals, and hence the final
aggregate built by get_all_deals, has expiry_date equal to updated_date
plus exactly 24 hours (86400 seconds), where updated_date is the timestamp
parsed from the collection metadata updated_at field. -/
theorem expiry_is_updated_plus_day :
    (∀ (pt : Except PyErr Response) (ex : String → List String) (mt : Except PyErr Response)
        (dd : DailyDeals), list_deals pt ex mt = Except.ok dd →
        dd.expiry_date = dd.updated_date + 86400)
    ∧ (∀ (pt : Except PyErr Response) (ex : String → List String) (mt : Except PyErr Response)
        (dd : DailyDeals) (info u : Json) (t : Int),
        list_deals pt ex mt = Except.ok dd →
        get_deals_info mt = Except.ok info → getItem info "updated_at" = Except.ok u →
        pyFromIso u = Except.ok t →
        dd.updated_date = t ∧ dd.expiry_date = t + 86400)
    ∧ (∀ (w : World) (fuel : Nat) (dd : DailyDeals) (log : List Nat),
        get_all_deals w fuel = some (Except.ok dd, log) →
        dd.expiry_date = dd.updated_date + 86400) := by
  refine ⟨fun pt ex mt dd h => list_deals_ok_expiry pt ex mt dd h, ?_,
    fun w fuel dd log h => get_all_deals_aux_ok_expiry w fuel 1 [] [] dd log h⟩
  intro pt ex mt dd info u t h hinfo hu ht
  unfold list_deals at h
  obtain ⟨cards, -, h⟩ := (except_bind_ok _ _ _).mp h
  obtain ⟨ds, -, h⟩ := (except_bind_ok _ _ _).mp h
  obtain ⟨info2, hinfo2, h⟩ := (except_bind_ok _ _ _).mp h
  obtain ⟨u2, hu2, h⟩ := (except_bind_ok _ _ _).mp h
  obtain ⟨t2, ht2, h⟩ := (except_bind_ok _ _ _).mp h
  rw [hinfo] at hinfo2
  injection hinfo2 with hinfo2
  subst hinfo2
  rw [hu] at hu2
  injection hu2 with hu2
  subst hu2
  rw [ht] at ht2
  injection ht2 with ht2
  subst ht2
  injection h with h
  subst h
  exact ⟨rfl, rfl⟩

/-- C4 witness: the empty page of the example world parses the metadata
timestamp 2023-01-02T00:00:00 and stamps expiry exactly one day later. -/
theorem expiry_is_updated_plus_day_witness :
    list_deals (Except.ok ⟨200, "P2"⟩) extractEx (Except.ok ⟨200, metaBody⟩)
        = Except.ok ⟨63808214400, 63808300800, []⟩
      ∧ (63808300800 : Int) = 63808214400 + 86400 := by
  constructor
  · rfl
  · have h := expiry_is_updated_plus_day.1 (Except.ok ⟨200, "P2"⟩) extractEx
      (Except.ok ⟨200, metaBody⟩) ⟨63808214400, 63808300800, []⟩ rfl
    exact h

/-- C2: on any JSON object carrying the required keys, with the first
variant carrying both price keys, from_json copies id, title, vendor (as
seller) and available (as a truthiness coercion), takes the prices from
the first variant only (later variants are ignored, as the unconstrained
vtail shows), divides each present price by 100 and leaves absent ones
absent (the extra conjuncts pin down price_of on null and on parseable
strings), and stores the entity-decoded url as the path. -/
theorem from_json_normalizes (kvs kvs0 : List (String × Json)) (i t vd av cap pr : Json)
    (vtail : List Json) (us : String) (oc op : Option Frac)
    (hid : lookupKV kvs "id" = some i)
    (hti : lookupKV kvs "title" = some t)
    (hvar : lookupKV kvs "variants" = some (Json.arr (Json.obj kvs0 :: vtail)))
    (hcap : lookupKV kvs0 "compare_at_price" = some cap)
    (hpr : lookupKV kvs0 "price" = some pr)
    (hvd : lookupKV kvs "vendor" = some vd)
    (hurl : lookupKV kvs "url" = some (Json.str us))
    (hav : lookupKV kvs "available" = some av)
    (hoc : price_of cap = Except.ok oc)
    (hop : price_of pr = Except.ok op) :
    Deal.from_json (Json.obj kvs)
        = Except.ok ⟨i, t, oc, op, vd, pathNormalize (htmlUnescape us), pyTruthy av⟩
      ∧ price_of Json.null = Except.ok none
      ∧ (∀ (s : String) (q : Frac), parseFloatStr s = some q →
          price_of (Json.str s) = Except.ok (some (q.div (Frac.ofInt 100)))) := by
  refine ⟨?_, rfl, ?_⟩
  · unfold Deal.from_json
    simp only [getItem, jsonIndex, hid, hti, hvar, hcap, hpr, hvd, hurl, hav, hoc, hop,
      List.get?_cons_zero, Bind.bind, Except.bind]
  · intro s q hq
    simp [price_of, pyFloat, Except.map, hq]

/-- C2 witness: the scenario object of the specification parses to
originalPrice 100, currentPrice 80 and the entity-decoded path. -/
theorem from_json_normalizes_witness :
    Deal.from_json (Json.obj giKvs)
      = Except.ok ⟨Json.num ⟨1, 1⟩, Json.str "Gi", some ⟨100, 1⟩, some ⟨80, 1⟩,
          Json.str "X", "https:/a&b", true⟩ := by
  have h := (from_json_normalizes giKvs
    [("compare_at_price", Json.str "10000"), ("price", Json.str "8000")]
    (Json.num ⟨1, 1⟩) (Json.str "Gi") (Json.str "X") (Json.bool true)
    (Json.str "10000") (Json.str "8000") [] "https://a&amp;b"
    (some ⟨100, 1⟩) (some ⟨80, 1⟩) rfl rfl rfl rfl rfl rfl rfl rfl rfl rfl).1
  exact h.trans (by rfl)

/-- C5: from_json raises TypeError on a non-mapping input; raises KeyError
when a required key is missing, the first missing key in evaluation order
(id, title, variants, then compare_at_price and price of the first
variant, vendor, url, available) naming the error; and raises ValueError
when a present price string does not parse as a number, both for
compare_at_price and for price (the latter with a parseable
compare_at_price before it). The embedding is a pure function, so
from_json has no side effects. -/
theorem from_json_error_conditions :
    (∀ j : Json, j.isObj = false → Deal.from_json j = Except.error PyErr.typeError)
    ∧ (∀ kvs, lookupKV kvs "id" = none →
        Deal.from_json (Json.obj kvs) = Except.error (PyErr.keyError "id"))
    ∧ (∀ kvs i, lookupKV kvs "id" = some i → lookupKV kvs "title" = none →
        Deal.from_json (Json.obj kvs) = Except.error (PyErr.keyError "title"))
    ∧ (∀ kvs i t, lookupKV kvs "id" = some i → lookupKV kvs "title" = some t →
        lookupKV kvs "variants" = none →
        Deal.from_json (Json.obj kvs) = Except.error (PyErr.keyError "variants"))
    ∧ (∀ kvs kvs0 i t (vtail : List Json), lookupKV kvs "id" = some i →
        lookupKV kvs "title" = some t →
        lookupKV kvs "variants" = some (Json.arr (Json.obj kvs0 :: vtail)) →
        lookupKV kvs0 "compare_at_price" = none →
        Deal.from_json (Json.obj kvs) = Except.error (PyErr.keyError "compare_at_price"))
    ∧ (∀ kvs kvs0 i t (vtail : List Json) cap (oc : Option Frac),
        lookupKV kvs "id" = some i → lookupKV kvs "title" = some t →
        lookupKV kvs "variants" = some (Json.arr (Json.obj kvs0 :: vtail)) →
        lookupKV kvs0 "compare_at_price" = some cap → price_of cap = Except.ok oc →
        lookupKV kvs0 "price" = none →
        Deal.from_json (Json.obj kvs) = Except.error (PyErr.keyError "price"))
    ∧ (∀ kvs kvs0 i t (vtail : List Json) cap (oc : Option Frac) pr (op : Option Frac),
        lookupKV kvs "id" = some i → lookupKV kvs "title" = some t →
        lookupKV kvs "variants" = some (Json.arr (Json.obj kvs0 :: vtail)) →
        lookupKV kvs0 "compare_at_price" = some cap → price_of cap = Except.ok oc →
        lookupKV kvs0 "price" = some pr → price_of pr = Except.ok op →
        lookupKV kvs "vendor" = none →
        Deal.from_json (Json.obj kvs) = Except.error (PyErr.keyError "vendor"))
    ∧ (∀ kvs kvs0 i t (vtail : List Json) cap (oc : Option Frac) pr (op : Option Frac) vd,
        lookupKV kvs "id" = some i → lookupKV kvs "title" = some t →
        lookupKV kvs "variants" = some (Json.arr (Json.obj kvs0 :: vtail)) →
        lookupKV kvs0 "compare_at_price" = some cap → price_of cap = Except.ok oc →
        lookupKV kvs0 "price" = some pr → price_of pr = Except.ok op →
        lookupKV kvs "vendor" = some vd → lookupKV kvs "url" = none →
        Deal.from_json (Json.obj kvs) = Except.error (PyErr.keyError "url"))
    ∧ (∀ kvs kvs0 i t (vtail : List Json) cap (oc : Option Frac) pr (op : Option Frac) vd
        (us : String),
        lookupKV kvs "id" = some i → lookupKV kvs "title" = some t →
        lookupKV kvs "variants" = some (Json.arr (Json.obj kvs0 :: vtail)) →
        lookupKV kvs0 "compare_at_price" = some cap → price_of cap = Except.ok oc →
        lookupKV kvs0 "price" = some pr → price_of pr = Except.ok op →
        lookupKV kvs "vendor" = some vd → lookupKV kvs "url" = some (Json.str us) →
        lookupKV kvs "available" = none →
        Deal.from_json (Json.obj kvs) = Except.error (PyErr.keyError "available"))
    ∧ (∀ kvs kvs0 i t (vtail : List Json) (s : String),
        lookupKV kvs "id" = some i → lookupKV kvs "title" = some t →
        lookupKV kvs "variants" = some (Json.arr (Json.obj kvs0 :: vtail)) →
        lookupKV kvs0 "compare_at_price" = some (Json.str s) → parseFloatStr s = none →
        Deal.from_json (Json.obj kvs) = Except.error PyErr.valueError)
    ∧ (∀ kvs kvs0 i t (vtail : List Json) cap (oc : Option Frac) (s : String),
        lookupKV kvs "id" = some i → lookupKV kvs "title" = some t →
        lookupKV kvs "variants" = some (Json.arr (Json.obj kvs0 :: vtail)) →
        lookupKV kvs0 "compare_at_price" = some cap → price_of cap = Except.ok oc →
        lookupKV kvs0 "price" = some (Json.str s) → parseFloatStr s = none →
        Deal.from_json (Json.obj kvs) = Except.error PyErr.valueError) := by
  refine ⟨?_, ?_, ?_, ?_, ?_, ?_, ?_, ?_, ?_, ?_, ?_⟩
  · intro j hj
    cases j <;> first
      | rfl
      | simp [Json.isObj] at hj
  · intro kvs h
    unfold Deal.from_json
    simp only [getItem, h, Bind.bind, Except.bind]
  · intro kvs i hid h
    unfold Deal.from_json
    simp only [getItem, hid, h, Bind.bind, Except.bind]
  · intro kvs i t hid hti h
    unfold Deal.from_json
    simp only [getItem, hid, hti, h, Bind.bind, Except.bind]
  · intro kvs kvs0 i t vtail hid hti hvar h
    unfold Deal.from_json
    simp only [getItem, jsonIndex, hid, hti, hvar, h, List.get?_cons_zero, Bind.bind,
      Except.bind]
  · intro kvs kvs0 i t vtail cap oc hid hti hvar hcap hoc h
    unfold Deal.from_json
    simp only [getItem, jsonIndex, hid, hti, hvar, hcap, hoc, h, List.get?_cons_zero,
      Bind.bind, Except.bind]
  · intro kvs kvs0 i t vtail cap oc pr op hid hti hvar hcap hoc hpr hop h
    unfold Deal.from_json
    simp only [getItem, jsonIndex, hid, hti, hvar, hcap, hoc, hpr, hop, h,
      List.get?_cons_zero, Bind.bind, Except.bind]
  · intro kvs kvs0 i t vtail cap oc pr op vd hid hti hvar hcap hoc hpr hop hvd h
    unfold Deal.from_json
    simp only [getItem, jsonIndex, hid, hti, hvar, hcap, hoc, hpr, hop, hvd, h,
      List.get?_cons_zero, Bind.bind, Except.bind]
  · intro kvs kvs0 i t vtail cap oc pr op vd us hid hti hvar hcap hoc hpr hop hvd hurl h
    unfold Deal.from_json
    simp only [getItem, jsonIndex, hid, hti, hvar, hcap, hoc, hpr, hop, hvd, hurl, h,
      List.get?_cons_zero, Bind.bind, Except.bind]
  · intro kvs kvs0 i t vtail s hid hti hvar hcap hs
    unfold Deal.from_json
    simp only [getItem, jsonIndex, hid, hti, hvar, hcap, List.get?_cons_zero, Bind.bind,
      Except.bind, price_of, pyFloat, Except.map, hs]
  · intro kvs kvs0 i t vtail cap oc s hid hti hvar hcap hoc hpr hs
    unfold Deal.from_json
    simp only [getItem, jsonIndex, hid, hti, hvar, hcap, hoc, hpr, List.get?_cons_zero,
      Bind.bind, Except.bind]
    simp only [price_of, pyFloat, Except.map, hs, Except.bind]

/-- C5 witness: the empty object is missing its first required key, so
from_json raises KeyError for id. -/
theorem from_json_error_conditions_witness :
    Deal.from_json (Json.obj []) = Except.error (PyErr.keyError "id") :=
  from_json_error_conditions.2.1 [] rfl

/-- C3: _parse_deals drops exactly the fragments whose raw text contains
the literal zero sentinel, before any JSON decoding: parsing a fragment
list equals parsing its sentinel-free sublist; a list with no sentinel
fragment is parsed in full; and the concrete fragment fragSent is dropped
(result is the empty deal list) even though it decodes to a product whose
first variant has the non-zero compare_at_price "5000", while the
sentinel-free fragClean is parsed and included. -/
theorem parse_deals_sentinel_filter :
    (∀ cards : List String,
        parse_deals cards = parse_deals (cards.filter (fun c => !strContains c zeroSentinel)))
    ∧ (∀ cards : List String, (∀ c ∈ cards, strContains c zeroSentinel = false) →
        parse_deals cards = mapParse cards)
    ∧ (strContains fragSent zeroSentinel = true
        ∧ parse_deals [fragSent] = Except.ok []
        ∧ json_loads fragSent = Except.ok fragSentJson
        ∧ (getItem fragSentJson "variants" >>= fun vs => jsonIndex vs 0 >>= fun v0 =>
            getItem v0 "compare_at_price") = Except.ok (Json.str "5000")
        ∧ parseFloatStr "5000" = some ⟨5000, 1⟩
        ∧ strContains fragClean zeroSentinel = false
        ∧ parse_deals [fragClean] = Except.ok [dealGi]) := by
  refine ⟨?_, ?_, rfl, rfl, rfl, rfl, rfl, rfl, rfl⟩
  · intro cards
    unfold parse_deals
    rw [List.filter_filter]
    simp
  · intro cards h
    unfold parse_deals
    rw [List.filter_eq_self.mpr]
    intro a ha
    rw [h a ha]
    rfl

/-- C3 witness: a concrete sentinel-free singleton list is parsed in
full. -/
theorem parse_deals_sentinel_filter_witness :
    parse_deals [fragClean] = mapParse [fragClean] := by
  have h := parse_deals_sentinel_filter.2.1 [fragClean]
    (fun c hc => by
      have hc2 : c = fragClean := List.mem_singleton.mp hc
      rw [hc2]
      rfl)
  exact h

/-- C6 counterexample: the claim says the metadata fetch fails when the
HTTP request does not succeed, but _get_deals_info never inspects the
status code: a 500 response whose body is valid collection JSON is
accepted. -/
theorem get_deals_info_ignores_status :
    (500 ≠ 200)
    ∧ get_deals_info (Except.ok ⟨500, metaBody⟩)
        = Except.ok (Json.obj [("updated_at", Json.str "2023-01-02T00:00:00")]) :=
  ⟨by omega, rfl⟩

/-- C6 amended: the metadata fetch propagates a transport-level failure of
requests.get, fails when the body is not valid JSON or has no collection
key, and the timestamp handling in _list_deals fails when updated_at is
absent or not parsable; the HTTP status code is not checked, so a
non-success status alone does not cause failure; exactly one request is
consumed per call, with no retry. -/
theorem get_deals_info_errors_amended :
    (∀ e : PyErr, get_deals_info (Except.error e) = Except.error e)
    ∧ (∀ (res : Response) (e : PyErr), json_loads res.body = Except.error e →
        get_deals_info (Except.ok res) = Except.error e)
    ∧ (∀ (res : Response) (kvs : List (String × Json)),
        json_loads res.body = Except.ok (Json.obj kvs) → lookupKV kvs "collection" = none →
        get_deals_info (Except.ok res) = Except.error (PyErr.keyError "collection"))
    ∧ (∀ (pt : Except PyErr Response) (ex : String → List String) (mt : Except PyErr Response)
        (cards : List String) (ds : List Deal) (info : Json) (e : PyErr),
        request_cards pt ex = Except.ok cards → parse_deals cards = Except.ok ds →
        get_deals_info mt = Except.ok info → getItem info "updated_at" = Except.error e →
        list_deals pt ex mt = Except.error e)
    ∧ (∀ (pt : Except PyErr Response) (ex : String → List String) (mt : Except PyErr Response)
        (cards : List String) (ds : List Deal) (info : Json) (s : String),
        request_cards pt ex = Except.ok cards → parse_deals cards = Except.ok ds →
        get_deals_info mt = Except.ok info →
        getItem info "updated_at" = Except.ok (Json.str s) → parseIso s.data = none →
        list_deals pt ex mt = Except.error PyErr.valueError)
    ∧ (∀ (r : Except PyErr Response) (rest : List (Except PyErr Response)),
        run_get_deals_info (r :: rest) = (get_deals_info r, rest)) := by
  refine ⟨fun e => rfl, ?_, ?_, ?_, ?_, fun r rest => rfl⟩
  · intro res e h
    simp [get_deals_info, h, Bind.bind, Except.bind]
  · intro res kvs h hc
    simp [get_deals_info, h, getItem, hc, Bind.bind, Except.bind]
  · intro pt ex mt cards ds info e hrc hpd hinfo hget
    unfold list_deals
    simp [hrc, hpd, hinfo, hget, Bind.bind, Except.bind]
  · intro pt ex mt cards ds info s hrc hpd hinfo hget hiso
    unfold list_deals
    simp [hrc, hpd, hinfo, hget, pyFromIso, fromisoformat, hiso, Bind.bind, Except.bind]

/-- C6 witness: a transport-level failure propagates unchanged. -/
theorem get_deals_info_errors_amended_witness :
    get_deals_info (Except.error PyErr.requestError) = Except.error PyErr.requestError :=
  get_deals_info_errors_amended.1 PyErr.requestError

/-- C8 counterexample: the claim says both derived quantities are
undefined whenever original_price is zero, but savings_amount is defined
there: on a deal with original price 0 and current price 80 it returns
-80 (and is not an error). -/
theorem savings_amount_defined_at_zero :
    Deal.savings_amount dZero = Except.ok ⟨-80, 1⟩
    ∧ (Deal.savings_amount dZero).isOk = true :=
  ⟨rfl, rfl⟩

/-- C8 amended: with both prices present, savings_amount is
original - current, and savings_percentage is current divided by original
provided the original is non-zero; with either price absent both raise
TypeError; with both present and original zero, savings_percentage raises
ZeroDivisionError but savings_amount is still defined and returns
original - current. -/
theorem savings_partiality_amended :
    (∀ (d : Deal) (o c : Frac), d.original_price = some o → d.current_price = some c →
        d.savings_amount = Except.ok (o.sub c)
          ∧ (o.num ≠ 0 → d.savings_percentage = Except.ok (c.div o)))
    ∧ (∀ d : Deal, d.original_price = none ∨ d.current_price = none →
        d.savings_amount = Except.error PyErr.typeError
          ∧ d.savings_percentage = Except.error PyErr.typeError)
    ∧ (∀ (d : Deal) (o c : Frac), d.original_price = some o → d.current_price = some c →
        o.num = 0 →
        d.savings_percentage = Except.error PyErr.zeroDivisionError
          ∧ d.savings_amount = Except.ok (o.sub c)) := by
  refine ⟨?_, ?_, ?_⟩
  · intro d o c ho hc
    exact ⟨by simp [Deal.savings_amount, ho, hc],
      fun hnz => by simp [Deal.savings_percentage, ho, hc, hnz]⟩
  · intro d h
    cases ho : d.original_price <;> cases hc : d.current_price <;>
      simp_all [Deal.savings_amount, Deal.savings_percentage]
  · intro d o c ho hc hz
    exact ⟨by simp [Deal.savings_percentage, ho, hc, hz],
      by simp [Deal.savings_amount, ho, hc]⟩

/-- C8 witness: with original 100 and current 80 the derived values are
defined: savings 20 and ratio 4/5. -/
theorem savings_partiality_amended_witness :
    Deal.savings_amount dBoth = Except.ok ⟨20, 1⟩
    ∧ Deal.savings_percentage dBoth = Except.ok ⟨4, 5⟩ := by
  have h := savings_partiality_amended.1 dBoth ⟨100, 1⟩ ⟨80, 1⟩ rfl rfl
  exact ⟨h.1.trans (by rfl), (h.2 (by decide)).trans (by rfl)⟩

theorem isPrefixOf_append_self (p t : List Char) : p.isPrefixOf (p ++ t) = true := by
  induction p with
  | nil => simp
  | cons a as ih => simp [List.isPrefixOf_cons₂, ih]

theorem strContains_of_parts (s pat : String)
    (h : ∃ x y, x ++ pat.data ++ y = s.data) : strContains s pat = true := by
  obtain ⟨x, y, hxy⟩ := h
  unfold strContains
  rw [List.any_eq_true]
  refine ⟨pat.data ++ y, ?_, isPrefixOf_append_self _ _⟩
  rw [List.mem_tails]
  exact ⟨x, by rw [← hxy, List.append_assoc]⟩

/-- C10: the repr of a Deal interpolates the id field on the line labelled
title= (so the output never depends on the title field): changing only the
title leaves the repr unchanged, and the repr always contains the text
title= followed by the rendering of the id. -/
theorem repr_title_uses_id :
    (∀ (d : Deal) (t1 t2 : Json),
        Deal.repr { d with title := t1 } = Deal.repr { d with title := t2 })
    ∧ (∀ d : Deal, strContains (Deal.repr d) ("title=" ++ pyStrJson d.id) = true) := by
  constructor
  · intro d t1 t2
    rfl
  · intro d
    apply strContains_of_parts
    refine ⟨("Deal(\n    id=" ++ pyStrJson d.id ++ ",\n    ").data,
      (",\n    original_price=" ++ pyStrOptFrac d.original_price ++ ",\n    current_price="
        ++ pyStrOptFrac d.current_price ++ ",\n    seller=" ++ pyStrJson d.seller
        ++ ",\n    path=" ++ d.path ++ ",\n    available="
        ++ (if d.available then "True" else "False") ++ ",\n        )").data, ?_⟩
    simp only [Deal.repr, String.data_append, List.append_assoc]
    rfl

/-- C10 witness: the repr of the concrete dealA contains title= followed
by the rendering of its id. -/
theorem repr_title_uses_id_witness :
    strContains (Deal.repr dealA) ("title=" ++ pyStrJson (Json.num ⟨1, 1⟩)) = true :=
  repr_title_uses_id.2 dealA
